import Mathlib

/-!
Shallow embedding of the retrieval / index-lifecycle subsystem of the
Cybersecurity-RAG-Assistant repository.

Python strings are modelled as Lean `String` (slicing `s[:n]` becomes
`String.mk (s.data.take n)`, which matches Python's code-point slicing).
Machine-level details (wall-clock floats, SQLAlchemy sessions) are modelled
as `Nat` ticks and explicit state threading.  External collaborators (the
LlamaIndex query engine, the on-disk FAISS files, the Ollama constructor)
are modelled as environment records carrying `Except`-valued outcomes: an
`Except.error` models a Python exception raised by that collaborator, and a
top-level `Except.error` result of a modelled operation means an uncaught
exception propagating out of that operation, exactly where the source has
no enclosing `try`.
-/

/-- Application settings, from the defaults in src/config.py. -/
structure Settings where
  ollama_base_url : String
  llm_model : String
  embedding_model : String
  embedding_dimension : Nat
  use_reranker : Bool
  chunk_size : Nat
  chunk_overlap : Nat
  top_k : Nat
  rerank_top_n : Nat
  deriving Repr, DecidableEq

/-- The global `settings` instance (config.py:56) with the documented defaults. -/
def settings : Settings where
  ollama_base_url := "http://localhost:11434"
  llm_model := "qwen2.5:7b-instruct"
  embedding_model := "sentence-transformers/bge-small-en-v1.5"
  embedding_dimension := 384
  use_reranker := true
  chunk_size := 512
  chunk_overlap := 50
  top_k := 5
  rerank_top_n := 3

/-- One row of the `documents` table (database.py:15-32).  `file_path` is a
unique key (`unique=True`, database.py:20); `file_hash` is indexed but NOT
unique (database.py:23).  Timestamps are modelled as `Nat` ticks. -/
structure DocumentMetadata where
  id : Nat
  file_path : String
  file_name : String
  file_size : Nat
  file_hash : String
  chunk_count : Nat
  ingested_at : Nat
  updated_at : Nat
  category : Option String
  tags : Option String
  notes : Option String
  deriving Repr, DecidableEq

/-- One row of the `query_logs` table (database.py:35-49).  `success` is an
integer column: 1 = success, 0 = failure (database.py:45). -/
structure QueryLog where
  id : Nat
  query_text : String
  response_text : Option String
  retrieved_chunks : Nat
  response_time : Nat
  success : Nat
  error_message : Option String
  deriving Repr, DecidableEq

/-- The SQLite database state managed by DatabaseManager (database.py:52-162). -/
structure Database where
  documents : List DocumentMetadata
  query_logs : List QueryLog
  next_doc_id : Nat
  next_log_id : Nat
  deriving Repr, DecidableEq

/-- DatabaseManager.get_document_by_path (database.py:98-101): first row whose
`file_path` matches. -/
def Database.get_document_by_path (db : Database) (file_path : String) :
    Option DocumentMetadata :=
  db.documents.find? (fun d => d.file_path == file_path)

/-- DatabaseManager.get_document_by_hash (database.py:103-106): first row whose
`file_hash` matches. -/
def Database.get_document_by_hash (db : Database) (file_hash : String) :
    Option DocumentMetadata :=
  db.documents.find? (fun d => d.file_hash == file_hash)

/-- DatabaseManager.add_document (database.py:78-96).  The source always
INSERTs a fresh row; SQLite's unique constraint on `file_path` makes the
insert (the session commit) raise when a row with the same path exists, which
this model renders as `Except.error`.  `now` models `datetime.utcnow()` used
by the column defaults for `ingested_at` and `updated_at`. -/
def Database.add_document (db : Database) (now : Nat) (file_path file_name : String)
    (file_size : Nat) (file_hash : String) (chunk_count : Nat)
    (category tags notes : Option String) :
    Except String (DocumentMetadata × Database) :=
  if db.documents.any (fun d => d.file_path == file_path) then
    Except.error "UNIQUE constraint failed: documents.file_path"
  else
    let doc : DocumentMetadata :=
      { id := db.next_doc_id, file_path := file_path, file_name := file_name
        file_size := file_size, file_hash := file_hash, chunk_count := chunk_count
        ingested_at := now, updated_at := now
        category := category, tags := tags, notes := notes }
    Except.ok (doc, { db with documents := db.documents ++ [doc]
                              next_doc_id := db.next_doc_id + 1 })

/-- DatabaseManager.log_query (database.py:126-142): appends one QueryLog row,
converting the boolean `success` to the 1/0 integer column. -/
def Database.log_query (db : Database) (query_text : String)
    (response_text : Option String) (retrieved_chunks : Nat)
    (response_time : Nat) (success : Bool) (error_message : Option String) :
    QueryLog × Database :=
  let log : QueryLog :=
    { id := db.next_log_id, query_text := query_text, response_text := response_text
      retrieved_chunks := retrieved_chunks, response_time := response_time
      success := if success then 1 else 0, error_message := error_message }
  (log, { db with query_logs := db.query_logs ++ [log]
                  next_log_id := db.next_log_id + 1 })

/-- A retrieved source node as seen by the pipeline (rag_pipeline.py:88-94):
its text content, an optional relevance score (Python float, modelled as an
integer in thousandths — no claim depends on score arithmetic), and metadata. -/
structure SourceNode where
  content : String
  score : Option Int
  node_metadata : List (String × String)
  deriving Repr, DecidableEq

/-- The response object returned by the LlamaIndex query engine
(rag_pipeline.py:77-87).  `source_nodes = none` models the absence of the
`source_nodes` attribute probed by `hasattr` (rag_pipeline.py:86). -/
structure EngineResponse where
  text : String
  source_nodes : Option (List SourceNode)
  deriving Repr, DecidableEq

/-- One entry of the `sources` list built for the caller (rag_pipeline.py:89-94). -/
structure SourceInfo where
  text : String
  score : Option Int
  node_metadata : List (String × String)
  deriving Repr, DecidableEq

/-- The preview truncation on rag_pipeline.py:90:
`get_content()[:500] + "..." if len(get_content()) > 500 else get_content()`. -/
def preview_text (content : String) : String :=
  if content.length > 500 then String.mk (content.data.take 500) ++ "..." else content

/-- Build one source_info dict (rag_pipeline.py:89-94). -/
def make_source_info (node : SourceNode) : SourceInfo :=
  { text := preview_text node.content, score := node.score
    node_metadata := node.node_metadata }

/-- Outcomes of the external collaborators touched by one RAGPipeline.query
call.  `init_result` is the outcome of `RAGPipeline.initialize` (the Ollama
constructor, rag_pipeline.py:24-46, which re-raises on failure);
`engine_result` is `vector_store_manager.get_query_engine` (rag_pipeline.py:74);
`query_result` is `query_engine.query` (rag_pipeline.py:77), covering
embedding, retrieval, reranking and generation in one opaque call.
`retrieved_before_failure` is ghost state: how many chunks the engine's
retrieval step had fetched before a failure — the source never observes it,
because retrieval and generation happen inside the single opaque engine call.
`elapsed` models `time.time() - start_time`. -/
structure QueryEnv where
  init_result : Except String Unit
  engine_result : Except String Unit
  query_result : Except String EngineResponse
  retrieved_before_failure : Nat
  elapsed : Nat
  deriving Repr

/-- The result dictionary returned by RAGPipeline.query
(rag_pipeline.py:107-117 on success, 138-147 on failure).  Keys absent from a
given dict are modelled as `none`. -/
structure QueryResult where
  status : String
  answer : Option String
  query : String
  retrieved_chunks : Nat
  response_time : Nat
  model : Option String
  sources : Option (List SourceInfo)
  error : Option String
  deriving Repr, DecidableEq

/-- The mutable state of the RAGPipeline singleton (rag_pipeline.py:15-17). -/
structure RAGPipeline where
  pipeline_initialized : Bool
  deriving Repr, DecidableEq

/-- RAGPipeline.query (rag_pipeline.py:48-147).  The lazy
`self.initialize()` call sits BEFORE the try block (rag_pipeline.py:65-66) and
`initialize` re-raises its own failures (rag_pipeline.py:44-46), so an
initialization failure propagates out of `query`: modelled as a top-level
`Except.error` with the database unchanged.  Everything from engine creation
through generation is inside the try (rag_pipeline.py:70-147): a failure there
is caught, logged with `retrieved_chunks=0` hardcoded (rag_pipeline.py:132),
and returned as a status="error" dictionary. -/
def RAGPipeline.query (st : RAGPipeline) (db : Database) (env : QueryEnv)
    (query_text : String) (_top_k : Option Nat) (return_sources : Bool) :
    Except String QueryResult × RAGPipeline × Database :=
  match (if st.pipeline_initialized then Except.ok () else env.init_result :
      Except String Unit) with
  | Except.error e => (Except.error e, st, db)
  | Except.ok _ =>
    let st : RAGPipeline := { pipeline_initialized := true }
    match (do
        let _ ← env.engine_result
        env.query_result : Except String EngineResponse) with
    | Except.ok response =>
      let answer := response.text
      let sources_and_count : List SourceInfo × Nat :=
        match return_sources, response.source_nodes with
        | true, some nodes => (nodes.map make_source_info, nodes.length)
        | _, _ => ([], 0)
      let retrieved_chunks := sources_and_count.2
      let db' := (db.log_query query_text (some answer) retrieved_chunks
        env.elapsed true none).2
      let result : QueryResult :=
        { status := "success", answer := some answer, query := query_text
          retrieved_chunks := retrieved_chunks, response_time := env.elapsed
          model := some settings.llm_model
          sources := if return_sources then some sources_and_count.1 else none
          error := none }
      (Except.ok result, st, db')
    | Except.error e =>
      let db' := (db.log_query query_text none 0 env.elapsed false (some e)).2
      let result : QueryResult :=
        { status := "error", answer := none, query := query_text
          retrieved_chunks := 0, response_time := env.elapsed
          model := none, sources := none, error := some e }
      (Except.ok result, st, db')

/-- Similarity metric of a FAISS index.  `_create_new_index` uses
`faiss.IndexFlatIP` (vector_store.py:80), i.e. inner product. -/
inductive SimMetric where
  | inner_product : SimMetric
  | l2 : SimMetric
  deriving Repr, DecidableEq

/-- The raw FAISS index: dimension, metric, and vector count (`ntotal`). -/
structure FaissIndex where
  dim : Nat
  metric : SimMetric
  ntotal : Nat
  deriving Repr, DecidableEq

/-- The FaissVectorStore wrapper holding `_faiss_index` (vector_store.py:83). -/
structure FaissStore where
  faiss_index : FaissIndex
  deriving Repr, DecidableEq

/-- The `index_struct` of a VectorStoreIndex, whose `nodes_dict` registry maps
node ids to nodes (vector_store.py:300-307).  `nodes_dict` is modelled as a
list of registered node ids. -/
structure IndexStruct where
  nodes_dict : List String
  deriving Repr, DecidableEq

/-- The VectorStoreIndex object held in `self.index`.  `index_struct = none`
models the `hasattr` probes on vector_store.py:300 failing; `struct_fault`
models an attribute access raising inside the integrity check's try block
(vector_store.py:295-321). -/
structure IndexModel where
  index_struct : Option IndexStruct
  struct_fault : Bool
  deriving Repr, DecidableEq

/-- The mutable state of VectorStoreManager (vector_store.py:16-23). -/
structure VectorStoreManager where
  vector_store : Option FaissStore
  index : Option IndexModel
  storage_context : Bool
  vsm_initialized : Bool
  deriving Repr, DecidableEq

/-- The persisted state that `FaissVectorStore.from_persist_dir` plus the
storage context would reconstruct on a successful load (vector_store.py:47-63). -/
structure LoadedState where
  vector_store : FaissStore
  index : IndexModel
  deriving Repr, DecidableEq

/-- Environment for VectorStoreManager.initialize: whether the registry file
`docstore.json` is present (vector_store.py:41-43), and the outcome of loading
the persisted state (`Except.error` models the load raising,
vector_store.py:66). -/
structure InitEnv where
  docstore_file_exists : Bool
  load_result : Except String LoadedState
  deriving Repr

/-- VectorStoreManager._create_new_index (vector_store.py:76-92): a fresh empty
IndexFlatIP of the configured dimension, a fresh storage context, and an empty
VectorStoreIndex. -/
def VectorStoreManager.create_new_index (vsm : VectorStoreManager) :
    VectorStoreManager :=
  { vsm with
    vector_store := some { faiss_index :=
      { dim := settings.embedding_dimension, metric := SimMetric.inner_product
        ntotal := 0 } }
    storage_context := true
    index := some { index_struct := some { nodes_dict := [] }, struct_fault := false } }

/-- VectorStoreManager.initialize (vector_store.py:25-74): idempotent guard,
then load-or-create.  A load failure is caught and falls back to
`_create_new_index` (vector_store.py:66-69), so this operation never raises
(the global `Settings` assignments on vector_store.py:31-37 are pure
configuration and are not modelled). -/
def VectorStoreManager.initialize_store (vsm : VectorStoreManager) (env : InitEnv) :
    VectorStoreManager :=
  if vsm.vsm_initialized then vsm
  else
    let vsm' :=
      if env.docstore_file_exists then
        match env.load_result with
        | Except.ok loaded =>
          { vsm with vector_store := some loaded.vector_store
                     storage_context := true
                     index := some loaded.index }
        | Except.error _ => vsm.create_new_index
      else vsm.create_new_index
    { vsm' with vsm_initialized := true }

/-- VectorStoreManager.save_index (vector_store.py:132-144): warns and returns
normally when uninitialized or without a storage context; otherwise persists,
re-raising on persistence failure (modelled by `persist_ok = false`). -/
def VectorStoreManager.save_index (vsm : VectorStoreManager) (persist_ok : Bool) :
    Except String Unit :=
  if ¬ vsm.vsm_initialized ∨ ¬ vsm.storage_context then Except.ok ()
  else if persist_ok then Except.ok ()
  else Except.error "Failed to save FAISS index"

/-- Environment for the write path: initialization environment (for the lazy
`initialize` on vector_store.py:148-149) and whether persistence succeeds. -/
structure WriteEnv where
  init_env : InitEnv
  persist_ok : Bool
  deriving Repr

/-- VectorStoreManager.add_documents (vector_store.py:146-175).  `documents`
is the list of node ids to insert.  Empty input returns 0 without mutation
(vector_store.py:151-153).  Otherwise the nodes are inserted (creating the
VectorStoreIndex if absent, vector_store.py:156-166) and the index is
persisted; a persistence failure re-raises AFTER the in-memory insert, so the
returned manager state is already mutated (in-memory ahead of disk). -/
def VectorStoreManager.add_documents (vsm : VectorStoreManager) (env : WriteEnv)
    (documents : List String) : Except String Nat × VectorStoreManager :=
  let vsm := if ¬ vsm.vsm_initialized then VectorStoreManager.initialize_store vsm env.init_env
    else vsm
  if documents.isEmpty then (Except.ok 0, vsm)
  else
    let grow : Option FaissStore → Option FaissStore := fun vs0 =>
      vs0.map (fun vs =>
        { faiss_index := { vs.faiss_index with
            ntotal := vs.faiss_index.ntotal + documents.length } })
    let vsm' :=
      match vsm.index with
      | none =>
        { vsm with
          index := some { index_struct := some { nodes_dict := documents }
                          struct_fault := false }
          vector_store := grow vsm.vector_store }
      | some idx =>
        let s0 : IndexStruct := idx.index_struct.getD { nodes_dict := [] }
        { vsm with
          index := some { idx with
            index_struct := some { nodes_dict := s0.nodes_dict ++ documents } }
          vector_store := grow vsm.vector_store }
    match vsm'.save_index env.persist_ok with
    | Except.ok _ => (Except.ok documents.length, vsm')
    | Except.error e => (Except.error e, vsm')

/-- VectorStoreManager.get_index_stats (vector_store.py:270-284), reduced to
the vector count it reports (`ntotal`); 0 stands for the `initialized: false`
dictionary. -/
def VectorStoreManager.num_vectors (vsm : VectorStoreManager) : Nat :=
  match vsm.vector_store with
  | some vs => vs.faiss_index.ntotal
  | none => 0

/-- VectorStoreManager.clear_index (vector_store.py:286-291): replace the index
with a fresh empty one and persist. -/
def VectorStoreManager.clear_index (vsm : VectorStoreManager) (persist_ok : Bool) :
    Except String Unit × VectorStoreManager :=
  let vsm' := vsm.create_new_index
  (vsm'.save_index persist_ok, vsm')

/-- VectorStoreManager._validate_index_integrity (vector_store.py:293-321):
false when uninitialized or the index object is absent (296-297); false when
the structure attributes are missing (315-317) or the node registry is empty
(302-304); the sample check (307-311) re-looks up ids drawn from the registry
itself; any exception inside the try returns false (319-321), modelled by
`struct_fault`. -/
def VectorStoreManager.validate_index_integrity (vsm : VectorStoreManager) : Bool :=
  if ¬ vsm.vsm_initialized then false
  else
    match vsm.index with
    | none => false
    | some idx =>
      if idx.struct_fault then false
      else
        match idx.index_struct with
        | none => false
        | some s =>
          if s.nodes_dict.isEmpty then false
          else
            let sample_ids := s.nodes_dict.take 3
            if sample_ids.all (fun node_id => s.nodes_dict.contains node_id) then
              true
            else false

/-- A source file as seen by DocumentIngestionService.ingest_file
(ingestion.py:48-144).  `file_exists` models `file_path.exists()`; `hash` is
the SHA256 content fingerprint `_calculate_file_hash` would compute; `size` is
`stat().st_size`; `chunks` is the list of node ids the SentenceSplitter
produces from the file's content (deterministic per file); `load_result`
models reading/extracting the file content inside the try block
(ingestion.py:82-94), with `Except.error` covering both a reader failure and
the `ValueError` thrown on empty extraction. -/
structure IngestFile where
  path : String
  name : String
  file_exists : Bool
  hash : String
  size : Nat
  chunks : List String
  load_result : Except String Unit

/-- The result dictionary of ingest_file (ingestion.py:75-79, 129-136,
140-144).  Keys absent from a given dict are modelled as `none`. -/
structure IngestResult where
  status : String
  reason : Option String
  file_path : String
  file_name : Option String
  chunk_count : Option Nat
  file_size : Option Nat
  category : Option String
  error : Option String
  deriving Repr, DecidableEq

/-- Environment for one ingest_file call: the vector-store write environment
and the current clock tick for the metadata timestamps. -/
structure IngestEnv where
  write_env : WriteEnv
  now : Nat
  deriving Repr

/-- DocumentIngestionService._check_duplicate (ingestion.py:32-46): duplicate
when either the file path or the content hash already has a Document Record. -/
def check_duplicate (db : Database) (file_path : String) (file_hash : String) :
    Bool :=
  match db.get_document_by_path file_path with
  | some _ => true
  | none =>
    match db.get_document_by_hash file_hash with
    | some _ => true
    | none => false

/-- DocumentIngestionService.ingest_file (ingestion.py:48-144).  A missing
file raises FileNotFoundError before any try block (ingestion.py:64-65),
modelled as a top-level `Except.error`.  Without `force`, a duplicate path or
hash short-circuits to a skipped result before any vector-store mutation
(ingestion.py:74-79).  Otherwise: load and chunk the file, add the chunks to
the vector store, then INSERT the metadata row; any exception inside the try
(load failure, vector-store write failure, or the metadata INSERT violating
the unique file-path constraint) is caught and returned as a status="error"
dictionary (ingestion.py:138-144) — with the vector store possibly already
mutated. -/
def ingest_file (vsm : VectorStoreManager) (db : Database) (env : IngestEnv)
    (file : IngestFile) (category : Option String) (tags : Option (List String))
    (notes : Option String) (force : Bool) :
    Except String IngestResult × VectorStoreManager × Database :=
  if ¬ file.file_exists then
    (Except.error ("File not found: " ++ file.path), vsm, db)
  else
    let file_hash := file.hash
    let file_size := file.size
    if ¬ force ∧ check_duplicate db file.path file_hash then
      (Except.ok { status := "skipped", reason := some "duplicate"
                   file_path := file.path, file_name := none, chunk_count := none
                   file_size := none, category := none, error := none }, vsm, db)
    else
      match file.load_result with
      | Except.error e =>
        (Except.ok { status := "error", reason := none, file_path := file.path
                     file_name := none, chunk_count := none, file_size := none
                     category := none, error := some e }, vsm, db)
      | Except.ok _ =>
        let chunk_count := file.chunks.length
        match vsm.add_documents env.write_env file.chunks with
        | (Except.error e, vsm') =>
          (Except.ok { status := "error", reason := none, file_path := file.path
                       file_name := none, chunk_count := none, file_size := none
                       category := none, error := some e }, vsm', db)
        | (Except.ok _, vsm') =>
          let tags_str := tags.map (fun ts => String.intercalate "," ts)
          match db.add_document env.now file.path file.name file_size file_hash
              chunk_count category tags_str notes with
          | Except.error e =>
            (Except.ok { status := "error", reason := none, file_path := file.path
                         file_name := none, chunk_count := none, file_size := none
                         category := none, error := some e }, vsm', db)
          | Except.ok (_, db') =>
            (Except.ok { status := "success", reason := none, file_path := file.path
                         file_name := some file.name, chunk_count := some chunk_count
                         file_size := some file_size, category := category
                         error := none }, vsm', db')

/-- The Document Record row that a successful ingest_file call INSERTs
(ingestion.py:116-125 together with database.py:82-95). -/
def inserted_doc (db : Database) (env : IngestEnv) (file : IngestFile)
    (category : Option String) (tags : Option (List String))
    (notes : Option String) : DocumentMetadata :=
  { id := db.next_doc_id, file_path := file.path, file_name := file.name
    file_size := file.size, file_hash := file.hash
    chunk_count := file.chunks.length, ingested_at := env.now
    updated_at := env.now, category := category
    tags := tags.map (fun ts => String.intercalate "," ts), notes := notes }

/-! Concrete instances used by the closed counterexample and witness theorems. -/

/-- An empty freshly-created database (SQLite autoincrement ids start at 1). -/
def db0 : Database :=
  { documents := [], query_logs := [], next_doc_id := 1, next_log_id := 1 }

/-- A query environment in which the lazy Ollama initialization raises
(rag_pipeline.py:44-46). -/
def env_init_fails : QueryEnv :=
  { init_result := Except.error "Ollama initialization failed"
    engine_result := Except.ok ()
    query_result := Except.ok { text := "", source_nodes := none }
    retrieved_before_failure := 0, elapsed := 0 }

/-- A query environment in which retrieval had fetched 3 chunks and the
language-model generation then timed out inside the opaque engine call. -/
def env_llm_timeout : QueryEnv :=
  { init_result := Except.ok ()
    engine_result := Except.ok ()
    query_result := Except.error "LLM request timed out"
    retrieved_before_failure := 3, elapsed := 12 }

/-- A retrieved node whose content fits inside the 500-character preview. -/
def node_short : SourceNode :=
  { content := "SQL injection basics", score := some 912
    node_metadata := [("category", "web")] }

/-- A retrieved node whose content exceeds the 500-character preview. -/
def node_long : SourceNode :=
  { content := String.mk (List.replicate 501 'x'), score := some 873
    node_metadata := [] }

/-- Sample retrieved set for the successful-query scenarios. -/
def sample_nodes : List SourceNode := [node_short, node_long]

/-- A successful engine response that carries source nodes. -/
def resp_with_sources : EngineResponse :=
  { text := "Use parameterized queries.", source_nodes := some sample_nodes }

/-- A query environment for an end-to-end successful query. -/
def env_success : QueryEnv :=
  { init_result := Except.ok (), engine_result := Except.ok ()
    query_result := Except.ok resp_with_sources
    retrieved_before_failure := 2, elapsed := 5 }

/-- A never-initialized vector store manager. -/
def vsm0 : VectorStoreManager :=
  { vector_store := none, index := none, storage_context := false
    vsm_initialized := false }

/-- Persisted state present on disk but damaged: loading it raises. -/
def env_load_fails : InitEnv :=
  { docstore_file_exists := true, load_result := Except.error "pickle load failed" }

/-- No persisted state on disk. -/
def env_no_store : InitEnv :=
  { docstore_file_exists := false, load_result := Except.error "unused" }

/-- A write environment whose persistence succeeds. -/
def write_env1 : WriteEnv := { init_env := env_no_store, persist_ok := true }

/-- The Document Record created by a prior successful ingestion of file1. -/
def doc1 : DocumentMetadata :=
  { id := 1, file_path := "docs/sql_injection.md", file_name := "sql_injection.md"
    file_size := 2048, file_hash := "h1", chunk_count := 3, ingested_at := 10
    updated_at := 10, category := some "web", tags := none, notes := none }

/-- Database state after that prior ingestion. -/
def db1 : Database :=
  { documents := [doc1], query_logs := [], next_doc_id := 2, next_log_id := 1 }

/-- The FAISS store after that prior ingestion: 3 vectors of dimension 384. -/
def vs1 : FaissStore :=
  { faiss_index := { dim := 384, metric := SimMetric.inner_product, ntotal := 3 } }

/-- The index object after that prior ingestion: 3 registered nodes, no fault. -/
def idx1 : IndexModel :=
  { index_struct := some { nodes_dict := ["n0", "n1", "n2"] }, struct_fault := false }

/-- Vector store manager state after that prior ingestion. -/
def vsm1 : VectorStoreManager :=
  { vector_store := some vs1, index := some idx1
    storage_context := true, vsm_initialized := true }

/-- The previously ingested file, unchanged on disk. -/
def file1 : IngestFile :=
  { path := "docs/sql_injection.md", name := "sql_injection.md", file_exists := true
    hash := "h1", size := 2048, chunks := ["n0", "n1", "n2"]
    load_result := Except.ok () }

/-- A file never ingested before. -/
def file2 : IngestFile :=
  { path := "docs/xss.md", name := "xss.md", file_exists := true
    hash := "h2", size := 1024, chunks := ["m0", "m1"]
    load_result := Except.ok () }

/-- Ingestion environment with a working persistence layer. -/
def env_ingest : IngestEnv := { write_env := write_env1, now := 20 }

/-! Helper lemmas. -/

/-- The preview leaves content of at most 500 characters untouched. -/
lemma preview_text_of_le (c : String) (h : c.length ≤ 500) : preview_text c = c := by
  unfold preview_text
  rw [if_neg (by omega)]

/-- The preview truncates content longer than 500 characters and appends the
marker. -/
lemma preview_text_of_gt (c : String) (h : 500 < c.length) :
    preview_text c = String.mk (c.data.take 500) ++ "..." := by
  unfold preview_text
  rw [if_pos h]

/-- Length of a packed character list concatenated with a string. -/
lemma string_length_mk_append (l : List Char) (s : String) :
    (String.mk l ++ s).length = l.length + s.length := by
  cases s with
  | mk d => simp [String.length, String.append]

/-- The displayed text is the 500-character prefix with the appended marker
exactly when the content exceeds the preview length. -/
lemma preview_marker_iff (c : String) :
    500 < c.length ↔ preview_text c = String.mk (c.data.take 500) ++ "..." := by
  constructor
  · exact preview_text_of_gt c
  · intro h
    by_contra hle
    push_neg at hle
    rw [preview_text_of_le c hle] at h
    have hlen := congrArg String.length h
    rw [string_length_mk_append] at hlen
    have htake : (c.data.take 500).length = c.data.length := by
      rw [List.length_take]
      have hc : c.length = c.data.length := rfl
      omega
    have hc : c.length = c.data.length := rfl
    have h3 : ("...").length = 3 := rfl
    omega

/-- A duplicate by path or by hash makes the duplicate check fire. -/
lemma check_duplicate_eq_true (db : Database) (p h : String)
    (hd : db.get_document_by_path p ≠ none ∨ db.get_document_by_hash h ≠ none) :
    check_duplicate db p h = true := by
  unfold check_duplicate
  rcases hd with hd | hd
  · cases hp : db.get_document_by_path p with
    | none => exact absurd hp hd
    | some d => simp
  · cases hp : db.get_document_by_path p with
    | some d => simp
    | none =>
      cases hh : db.get_document_by_hash h with
      | none => exact absurd hh hd
      | some d => simp

/-- No record by path and none by hash means the duplicate check passes. -/
lemma check_duplicate_eq_false (db : Database) (p h : String)
    (hp : db.get_document_by_path p = none)
    (hh : db.get_document_by_hash h = none) : check_duplicate db p h = false := by
  unfold check_duplicate
  rw [hp, hh]

/-- save_index never raises when persistence succeeds (it returns early with a
warning when uninitialized, vector_store.py:134-136). -/
lemma save_index_ok_of_persist (v : VectorStoreManager) :
    v.save_index true = Except.ok () := by
  unfold VectorStoreManager.save_index
  by_cases hc : ¬ v.vsm_initialized ∨ ¬ v.storage_context
  · rw [if_pos hc]
  · rw [if_neg hc, if_pos rfl]

/-- Exact state change of add_documents on an initialized manager with a live
index and working persistence: the node ids are appended to the registry and
`ntotal` grows by the insert count. -/
lemma add_documents_insert_eq (vsm : VectorStoreManager) (env : WriteEnv)
    (documents : List String) (idx : IndexModel)
    (hinit : vsm.vsm_initialized = true) (hidx : vsm.index = some idx)
    (hpersist : env.persist_ok = true) (hne : documents ≠ []) :
    vsm.add_documents env documents =
      (Except.ok documents.length,
       { vsm with
         index := some { idx with index_struct := some { nodes_dict :=
           (idx.index_struct.getD { nodes_dict := [] }).nodes_dict ++ documents } }
         vector_store := vsm.vector_store.map (fun vs =>
           { faiss_index := { vs.faiss_index with
               ntotal := vs.faiss_index.ntotal + documents.length } }) }) := by
  unfold VectorStoreManager.add_documents
  dsimp only
  rw [if_neg (show ¬ ¬ vsm.vsm_initialized = true by simp [hinit])]
  rw [if_neg (show ¬ documents.isEmpty = true by simp [hne])]
  rw [hidx, hpersist, save_index_ok_of_persist]

/-- A failed find? means no element satisfies the predicate. -/
lemma any_eq_false_of_find?_eq_none {α : Type} (p : α → Bool) (l : List α)
    (h : l.find? p = none) : l.any p = false :=
  List.any_eq_false.mpr (List.find?_eq_none.mp h)

/-- A successful find? yields a satisfying element. -/
lemma any_eq_true_of_find?_ne_none {α : Type} (p : α → Bool) (l : List α)
    (h : l.find? p ≠ none) : l.any p = true := by
  rw [Option.ne_none_iff_exists'] at h
  obtain ⟨d, hd⟩ := h
  exact List.any_eq_true.mpr ⟨d, List.mem_of_find?_eq_some hd, List.find?_some hd⟩

/-- Exact result of ingest_file on a fresh (non-duplicate) file whose chunks
were added successfully: a success dictionary and one INSERTed row. -/
lemma ingest_file_success_eq
    (vsm : VectorStoreManager) (db : Database) (env : IngestEnv) (file : IngestFile)
    (category : Option String) (tags : Option (List String)) (notes : Option String)
    (hex : file.file_exists = true)
    (hload : file.load_result = Except.ok ())
    (hnodup_path : db.documents.any (fun d => d.file_path == file.path) = false)
    (hcd : check_duplicate db file.path file.hash = false)
    (n : Nat) (vsm' : VectorStoreManager)
    (hadd : vsm.add_documents env.write_env file.chunks = (Except.ok n, vsm')) :
    ingest_file vsm db env file category tags notes false =
      (Except.ok { status := "success", reason := none, file_path := file.path
                   file_name := some file.name, chunk_count := some file.chunks.length
                   file_size := some file.size, category := category, error := none },
       vsm',
       { db with
         documents := db.documents ++ [inserted_doc db env file category tags notes]
         next_doc_id := db.next_doc_id + 1 }) := by
  unfold ingest_file Database.add_document inserted_doc
  dsimp only
  rw [if_neg (show ¬ ¬ file.file_exists = true by simp [hex])]
  rw [if_neg (show ¬ (¬ false = true ∧ check_duplicate db file.path file.hash = true)
    by simp [hcd])]
  rw [hload, hadd]
  rw [if_neg (show ¬ db.documents.any (fun d => d.file_path == file.path) = true
    by simp [hnodup_path])]

/-- Exact result of a forced ingest_file on an already-recorded path: the
vectors are added, then the metadata INSERT violates the unique file-path
constraint inside the try block, so the call reports status="error" while the
database is left exactly as before. -/
lemma ingest_file_dup_path_error_eq
    (vsm : VectorStoreManager) (db : Database) (env : IngestEnv) (file : IngestFile)
    (category : Option String) (tags : Option (List String)) (notes : Option String)
    (hex : file.file_exists = true)
    (hload : file.load_result = Except.ok ())
    (hdup_path : db.documents.any (fun d => d.file_path == file.path) = true)
    (n : Nat) (vsm' : VectorStoreManager)
    (hadd : vsm.add_documents env.write_env file.chunks = (Except.ok n, vsm')) :
    ingest_file vsm db env file category tags notes true =
      (Except.ok { status := "error", reason := none, file_path := file.path
                   file_name := none, chunk_count := none, file_size := none
                   category := none
                   error := some "UNIQUE constraint failed: documents.file_path" },
       vsm', db) := by
  unfold ingest_file Database.add_document
  dsimp only
  rw [if_neg (show ¬ ¬ file.file_exists = true by simp [hex])]
  rw [if_neg (show ¬ (¬ true = true ∧ check_duplicate db file.path file.hash = true)
    by simp)]
  rw [hload, hadd]
  rw [if_pos hdup_path]

/-- Ids sampled from a registry always re-resolve inside that registry. -/
lemma take_all_contains (l : List String) :
    (l.take 3).all (fun node_id => l.contains node_id) = true := by
  rw [List.all_eq_true]
  intro x hx
  have hmem := List.mem_of_mem_take hx
  exact List.elem_eq_true_of_mem hmem

/-- C1 (amended): provided the lazy pipeline initialization does not fail (the
pipeline is already initialized, or the Ollama construction succeeds) and the
collaborators raise only exceptions with non-empty messages, every call to
RAGPipeline.query returns a structured result dictionary instead of raising:
on success status="success" with a non-null answer, on any failure during
engine creation / embedding / retrieval / reranking / generation
status="error" with a null answer and a non-empty error message.  (The
unamended claim is refuted by `query_raises_on_init_failure`: an exception
from the lazy `initialize()` call, which sits before the try block, escapes
the query boundary.) -/
theorem query_returns_structured_result
    (st : RAGPipeline) (db : Database) (env : QueryEnv) (query_text : String)
    (tk : Option Nat) (return_sources : Bool)
    (hinit : st.pipeline_initialized = true ∨ env.init_result = Except.ok ())
    (hmsg : ∀ e, env.engine_result = Except.error e ∨ env.query_result = Except.error e →
      e ≠ "") :
    ∃ result st' db',
      RAGPipeline.query st db env query_text tk return_sources =
        (Except.ok result, st', db') ∧
      ((result.status = "success" ∧ result.answer.isSome ∧ result.error = none) ∨
       (result.status = "error" ∧ result.answer = none ∧
        ∃ e, result.error = some e ∧ e ≠ "")) := by
  obtain ⟨b⟩ := st
  obtain ⟨ir, er, qr, rbf, el⟩ := env
  cases b with
  | true =>
    cases er with
    | ok u =>
      cases qr with
      | ok response => exact ⟨_, _, _, rfl, Or.inl ⟨rfl, rfl, rfl⟩⟩
      | error e => exact ⟨_, _, _, rfl, Or.inr ⟨rfl, rfl, e, rfl, hmsg e (Or.inr rfl)⟩⟩
    | error e => exact ⟨_, _, _, rfl, Or.inr ⟨rfl, rfl, e, rfl, hmsg e (Or.inl rfl)⟩⟩
  | false =>
    have hir : ir = Except.ok () := by
      rcases hinit with h | h
      · exact absurd h (by simp)
      · exact h
    subst hir
    cases er with
    | ok u =>
      cases qr with
      | ok response => exact ⟨_, _, _, rfl, Or.inl ⟨rfl, rfl, rfl⟩⟩
      | error e => exact ⟨_, _, _, rfl, Or.inr ⟨rfl, rfl, e, rfl, hmsg e (Or.inr rfl)⟩⟩
    | error e => exact ⟨_, _, _, rfl, Or.inr ⟨rfl, rfl, e, rfl, hmsg e (Or.inl rfl)⟩⟩

/-- Witness for C1: on an initialized pipeline whose generation step times
out, query returns the structured error dictionary. -/
theorem query_returns_structured_result_witness :
    ∃ result st' db',
      RAGPipeline.query ⟨false⟩ db0 env_llm_timeout "what is xss" none false =
        (Except.ok result, st', db') ∧
      ((result.status = "success" ∧ result.answer.isSome ∧ result.error = none) ∨
       (result.status = "error" ∧ result.answer = none ∧
        ∃ e, result.error = some e ∧ e ≠ "")) :=
  query_returns_structured_result ⟨false⟩ db0 env_llm_timeout "what is xss" none false
    (Or.inr rfl)
    (fun e h => by
      rcases h with h | h
      · exact absurd h (by simp [env_llm_timeout])
      · simp [env_llm_timeout] at h
        subst h
        decide)

/-- Counterexample to C1 as stated: on an uninitialized pipeline whose lazy
`initialize()` raises (rag_pipeline.py:65-66 before the try block, 44-46
re-raise), the exception escapes RAGPipeline.query instead of a result
dictionary being returned. -/
theorem query_raises_on_init_failure :
    (RAGPipeline.query ⟨false⟩ db0 env_init_fails "what is xss" none false).1 =
      Except.error "Ollama initialization failed" := rfl

/-- C2 (amended): provided the lazy pipeline initialization does not fail,
every call to RAGPipeline.query appends exactly one Query Log entry: on
success one entry with success=1 carrying the answer text, on failure one
entry with success=0 carrying the error message and a null answer.  (The
unamended claim is refuted by `query_init_failure_creates_no_log`: when the
lazy initialization raises, the call aborts with zero entries logged.) -/
theorem query_logs_exactly_once_after_init
    (st : RAGPipeline) (db : Database) (env : QueryEnv) (query_text : String)
    (tk : Option Nat) (return_sources : Bool)
    (hinit : st.pipeline_initialized = true ∨ env.init_result = Except.ok ()) :
    ∃ result st' db' log,
      RAGPipeline.query st db env query_text tk return_sources =
        (Except.ok result, st', db') ∧
      db'.query_logs = db.query_logs ++ [log] ∧
      ((log.success = 1 ∧ result.status = "success" ∧
        log.response_text = result.answer) ∨
       (log.success = 0 ∧ result.status = "error" ∧ log.response_text = none ∧
        log.error_message = result.error)) := by
  obtain ⟨b⟩ := st
  obtain ⟨ir, er, qr, rbf, el⟩ := env
  cases b with
  | true =>
    cases er with
    | ok u =>
      cases qr with
      | ok response => exact ⟨_, _, _, _, rfl, rfl, Or.inl ⟨rfl, rfl, rfl⟩⟩
      | error e => exact ⟨_, _, _, _, rfl, rfl, Or.inr ⟨rfl, rfl, rfl, rfl⟩⟩
    | error e => exact ⟨_, _, _, _, rfl, rfl, Or.inr ⟨rfl, rfl, rfl, rfl⟩⟩
  | false =>
    have hir : ir = Except.ok () := by
      rcases hinit with h | h
      · exact absurd h (by simp)
      · exact h
    subst hir
    cases er with
    | ok u =>
      cases qr with
      | ok response => exact ⟨_, _, _, _, rfl, rfl, Or.inl ⟨rfl, rfl, rfl⟩⟩
      | error e => exact ⟨_, _, _, _, rfl, rfl, Or.inr ⟨rfl, rfl, rfl, rfl⟩⟩
    | error e => exact ⟨_, _, _, _, rfl, rfl, Or.inr ⟨rfl, rfl, rfl, rfl⟩⟩

/-- Witness for C2: a successful query on an initialized pipeline appends one
success log entry. -/
theorem query_logs_exactly_once_after_init_witness :
    ∃ result st' db' log,
      RAGPipeline.query ⟨true⟩ db0 env_success "how do I prevent sql injection" none
        false = (Except.ok result, st', db') ∧
      db'.query_logs = db0.query_logs ++ [log] ∧
      ((log.success = 1 ∧ result.status = "success" ∧
        log.response_text = result.answer) ∨
       (log.success = 0 ∧ result.status = "error" ∧ log.response_text = none ∧
        log.error_message = result.error)) :=
  query_logs_exactly_once_after_init ⟨true⟩ db0 env_success
    "how do I prevent sql injection" none false (Or.inl rfl)

/-- Counterexample to C2 as stated: when the lazy initialization raises, the
query attempt creates zero Query Log entries (and the exception escapes), not
exactly one. -/
theorem query_init_failure_creates_no_log :
    ((RAGPipeline.query ⟨false⟩ db0 env_init_fails "what is xss" none false).2.2).query_logs
      = [] ∧
    (RAGPipeline.query ⟨false⟩ db0 env_init_fails "what is xss" none false).1 =
      Except.error "Ollama initialization failed" := ⟨rfl, rfl⟩

/-- C3 (confirmed): for every existing file whose path or content hash already
matches a Document Record, ingest_file without force returns status="skipped"
with reason "duplicate", mutates nothing, and leaves the vector count
unchanged. -/
theorem duplicate_ingest_skipped
    (vsm : VectorStoreManager) (db : Database) (env : IngestEnv) (file : IngestFile)
    (category : Option String) (tags : Option (List String)) (notes : Option String)
    (hex : file.file_exists = true)
    (hdup : db.get_document_by_path file.path ≠ none ∨
            db.get_document_by_hash file.hash ≠ none) :
    ingest_file vsm db env file category tags notes false =
      (Except.ok { status := "skipped", reason := some "duplicate"
                   file_path := file.path, file_name := none, chunk_count := none
                   file_size := none, category := none, error := none }, vsm, db) ∧
    ((ingest_file vsm db env file category tags notes false).2.1).num_vectors =
      vsm.num_vectors := by
  have hcd := check_duplicate_eq_true db file.path file.hash hdup
  have hmain : ingest_file vsm db env file category tags notes false =
      (Except.ok { status := "skipped", reason := some "duplicate"
                   file_path := file.path, file_name := none, chunk_count := none
                   file_size := none, category := none, error := none }, vsm, db) := by
    unfold ingest_file
    dsimp only
    rw [if_neg (by simp [hex]), if_pos ⟨by simp, hcd⟩]
  exact ⟨hmain, by rw [hmain]⟩

/-- Witness for C3: re-offering the already-ingested file1 without force is
skipped as a duplicate and the vector count stays at 3. -/
theorem duplicate_ingest_skipped_witness :
    ingest_file vsm1 db1 env_ingest file1 none none none false =
      (Except.ok { status := "skipped", reason := some "duplicate"
                   file_path := file1.path, file_name := none, chunk_count := none
                   file_size := none, category := none, error := none }, vsm1, db1) ∧
    ((ingest_file vsm1 db1 env_ingest file1 none none none false).2.1).num_vectors =
      vsm1.num_vectors :=
  duplicate_ingest_skipped vsm1 db1 env_ingest file1 none none none rfl
    (Or.inl (by decide))

/-- C4 (amended): a Document Record is created (INSERTed) on first successful
ingestion with the file's chunk count and the current timestamps, but
re-ingestion of the same file path never updates the existing record:
add_document always INSERTs a fresh row, the unique file-path key rejects it,
and ingest_file returns status="error" with the database — including the
original record's chunk_count and updated-at timestamp — exactly unchanged.
(The unamended claim is refuted by `reingest_leaves_record_unchanged`.) -/
theorem ingest_metadata_insert_only
    (vsm : VectorStoreManager) (db : Database) (env : IngestEnv) (file : IngestFile)
    (category : Option String) (tags : Option (List String)) (notes : Option String)
    (idx : IndexModel)
    (hex : file.file_exists = true)
    (hload : file.load_result = Except.ok ())
    (hinit : vsm.vsm_initialized = true)
    (hidx : vsm.index = some idx)
    (hpersist : env.write_env.persist_ok = true)
    (hchunks : file.chunks ≠ []) :
    ((db.get_document_by_path file.path = none →
      db.get_document_by_hash file.hash = none →
      ∃ r vsm',
        ingest_file vsm db env file category tags notes false =
          (Except.ok r, vsm',
           { db with
             documents := db.documents ++
               [inserted_doc db env file category tags notes]
             next_doc_id := db.next_doc_id + 1 }) ∧
        r.status = "success" ∧
        (inserted_doc db env file category tags notes).file_path = file.path ∧
        (inserted_doc db env file category tags notes).chunk_count =
          file.chunks.length ∧
        (inserted_doc db env file category tags notes).ingested_at = env.now ∧
        (inserted_doc db env file category tags notes).updated_at = env.now) ∧
     (db.get_document_by_path file.path ≠ none →
      ∃ r vsm',
        ingest_file vsm db env file category tags notes true =
          (Except.ok r, vsm', db) ∧
        r.status = "error" ∧
        r.error = some "UNIQUE constraint failed: documents.file_path")) := by
  have hadd := add_documents_insert_eq vsm env.write_env file.chunks idx hinit hidx
    hpersist hchunks
  constructor
  · intro hp hh
    have hany := any_eq_false_of_find?_eq_none _ _ hp
    have hcd := check_duplicate_eq_false db file.path file.hash hp hh
    exact ⟨_, _, ingest_file_success_eq vsm db env file category tags notes hex hload
      hany hcd _ _ hadd, rfl, rfl, rfl, rfl, rfl⟩
  · intro hp
    have hany := any_eq_true_of_find?_ne_none _ _ hp
    exact ⟨_, _, ingest_file_dup_path_error_eq vsm db env file category tags notes hex
      hload hany _ _ hadd, rfl, rfl⟩

/-- Witness for C4: a fresh file is INSERTed with the current clock tick as
both timestamps, and a forced re-ingest of the recorded file1 errors leaving
the database unchanged. -/
theorem ingest_metadata_insert_only_witness :
    (∃ r vsm',
      ingest_file vsm1 db1 env_ingest file2 none none none false =
        (Except.ok r, vsm',
         { db1 with
           documents := db1.documents ++
             [inserted_doc db1 env_ingest file2 none none none]
           next_doc_id := db1.next_doc_id + 1 }) ∧
      r.status = "success" ∧
      (inserted_doc db1 env_ingest file2 none none none).file_path = file2.path ∧
      (inserted_doc db1 env_ingest file2 none none none).chunk_count =
        file2.chunks.length ∧
      (inserted_doc db1 env_ingest file2 none none none).ingested_at =
        env_ingest.now ∧
      (inserted_doc db1 env_ingest file2 none none none).updated_at =
        env_ingest.now) ∧
    (∃ r vsm',
      ingest_file vsm1 db1 env_ingest file1 none none none true =
        (Except.ok r, vsm', db1) ∧
      r.status = "error" ∧
      r.error = some "UNIQUE constraint failed: documents.file_path") :=
  ⟨(ingest_metadata_insert_only vsm1 db1 env_ingest file2 none none none idx1
      rfl rfl rfl rfl rfl (by decide)).1 (by decide) (by decide),
   (ingest_metadata_insert_only vsm1 db1 env_ingest file1 none none none idx1
      rfl rfl rfl rfl rfl (by decide)).2 (by decide)⟩

/-- Counterexample to C4 as stated: re-ingesting the previously ingested file1
(force, same path, fresh clock tick 20) returns status="error" on the unique
file-path constraint and leaves the stored record untouched — chunk_count
still 3 and updated-at still 10, not the new tick. -/
theorem reingest_leaves_record_unchanged :
    ((ingest_file vsm1 db1 env_ingest file1 none none none true).2.2).documents =
      [doc1] ∧
    (ingest_file vsm1 db1 env_ingest file1 none none none true).1 =
      Except.ok { status := "error", reason := none
                  file_path := "docs/sql_injection.md"
                  file_name := none, chunk_count := none, file_size := none
                  category := none
                  error := some "UNIQUE constraint failed: documents.file_path" } ∧
    doc1.chunk_count = 3 ∧ doc1.updated_at = 10 ∧ env_ingest.now = 20 ∧
    doc1.updated_at ≠ env_ingest.now :=
  ⟨rfl, rfl, rfl, rfl, rfl, by decide⟩

/-- C5 (confirmed): re-ingesting a previously ingested, non-empty file with
force=true bypasses the duplicate check and appends its chunks to the vector
index again: the vector count strictly increases by the chunk count and the
same node ids now appear a second time in the registry (duplicate vectors
coexist). -/
theorem force_reingest_increases_vector_count
    (vsm : VectorStoreManager) (db : Database) (env : IngestEnv) (file : IngestFile)
    (category : Option String) (tags : Option (List String)) (notes : Option String)
    (vs : FaissStore) (idx : IndexModel)
    (hex : file.file_exists = true)
    (hload : file.load_result = Except.ok ())
    (hinit : vsm.vsm_initialized = true)
    (hvs : vsm.vector_store = some vs)
    (hidx : vsm.index = some idx)
    (hpersist : env.write_env.persist_ok = true)
    (hchunks : file.chunks ≠ [])
    (hprior : db.get_document_by_path file.path ≠ none) :
    ∃ r vsm' db',
      ingest_file vsm db env file category tags notes true =
        (Except.ok r, vsm', db') ∧
      vsm'.num_vectors = vsm.num_vectors + file.chunks.length ∧
      vsm.num_vectors < vsm'.num_vectors ∧
      vsm'.index = some { idx with index_struct := some { nodes_dict :=
        (idx.index_struct.getD { nodes_dict := [] }).nodes_dict ++ file.chunks } } := by
  have hadd := add_documents_insert_eq vsm env.write_env file.chunks idx hinit hidx
    hpersist hchunks
  have hany := any_eq_true_of_find?_ne_none _ _ hprior
  have heq := ingest_file_dup_path_error_eq vsm db env file category tags notes hex
    hload hany _ _ hadd
  have hcount : (VectorStoreManager.num_vectors
      { vsm with
        index := some { idx with index_struct := some { nodes_dict :=
          (idx.index_struct.getD { nodes_dict := [] }).nodes_dict ++ file.chunks } }
        vector_store := vsm.vector_store.map (fun vs0 =>
          { faiss_index := { vs0.faiss_index with
              ntotal := vs0.faiss_index.ntotal + file.chunks.length } }) }) =
      vsm.num_vectors + file.chunks.length := by
    simp [VectorStoreManager.num_vectors, hvs]
  refine ⟨_, _, _, heq, hcount, ?_, rfl⟩
  rw [hcount]
  have hpos : 0 < file.chunks.length := List.length_pos.mpr hchunks
  omega

/-- Witness for C5: forcing re-ingestion of the 3-chunk file1 raises the
vector count from 3 to 6 and duplicates its node ids in the registry. -/
theorem force_reingest_increases_vector_count_witness :
    ∃ r vsm' db',
      ingest_file vsm1 db1 env_ingest file1 none none none true =
        (Except.ok r, vsm', db') ∧
      vsm'.num_vectors = vsm1.num_vectors + file1.chunks.length ∧
      vsm1.num_vectors < vsm'.num_vectors ∧
      vsm'.index = some { idx1 with index_struct := some { nodes_dict :=
        (idx1.index_struct.getD { nodes_dict := [] }).nodes_dict ++ file1.chunks } } :=
  force_reingest_increases_vector_count vsm1 db1 env_ingest file1 none none none
    vs1 idx1 rfl rfl rfl rfl rfl rfl (by decide) (by decide)

/-- C6 (amended): every query that fails inside the try block (engine creation
or the opaque retrieval/generation call) yields a Query Log entry with
success=0, a null answer, a non-empty error message, and retrieved_chunks
ALWAYS equal to 0, hardcoded in the failure handler (rag_pipeline.py:132) —
not, as the unamended claim states, a count reflecting whatever retrieval
completed before the failure (refuted by
`failed_query_log_ignores_retrieved_count`). -/
theorem failed_query_log_shape
    (st : RAGPipeline) (db : Database) (env : QueryEnv) (query_text : String)
    (tk : Option Nat) (return_sources : Bool) (e : String)
    (hinit : st.pipeline_initialized = true ∨ env.init_result = Except.ok ())
    (hfail : env.engine_result = Except.error e ∨
      (env.engine_result = Except.ok () ∧ env.query_result = Except.error e))
    (hne : e ≠ "") :
    ∃ result st' db' log,
      RAGPipeline.query st db env query_text tk return_sources =
        (Except.ok result, st', db') ∧
      db'.query_logs = db.query_logs ++ [log] ∧
      result.status = "error" ∧ result.answer = none ∧
      log.success = 0 ∧ log.response_text = none ∧
      log.error_message = some e ∧ e ≠ "" ∧ log.retrieved_chunks = 0 := by
  obtain ⟨b⟩ := st
  obtain ⟨ir, er, qr, rbf, el⟩ := env
  rcases hfail with h | ⟨h1, h2⟩
  · have he : er = Except.error e := h
    subst he
    cases b with
    | true => exact ⟨_, _, _, _, rfl, rfl, rfl, rfl, rfl, rfl, rfl, hne, rfl⟩
    | false =>
      have h3 : ir = Except.ok () := by
        rcases hinit with h | h
        · exact absurd h (by simp)
        · exact h
      subst h3
      exact ⟨_, _, _, _, rfl, rfl, rfl, rfl, rfl, rfl, rfl, hne, rfl⟩
  · have he : er = Except.ok () := h1
    subst he
    have hq' : qr = Except.error e := h2
    subst hq'
    cases b with
    | true => exact ⟨_, _, _, _, rfl, rfl, rfl, rfl, rfl, rfl, rfl, hne, rfl⟩
    | false =>
      have h3 : ir = Except.ok () := by
        rcases hinit with h | h
        · exact absurd h (by simp)
        · exact h
      subst h3
      exact ⟨_, _, _, _, rfl, rfl, rfl, rfl, rfl, rfl, rfl, hne, rfl⟩

/-- Witness for C6: a language-model timeout is logged with success=0, null
answer, the timeout message, and retrieved_chunks=0. -/
theorem failed_query_log_shape_witness :
    ∃ result st' db' log,
      RAGPipeline.query ⟨true⟩ db0 env_llm_timeout "what is xss" none false =
        (Except.ok result, st', db') ∧
      db'.query_logs = db0.query_logs ++ [log] ∧
      result.status = "error" ∧ result.answer = none ∧
      log.success = 0 ∧ log.response_text = none ∧
      log.error_message = some "LLM request timed out" ∧
      "LLM request timed out" ≠ "" ∧ log.retrieved_chunks = 0 :=
  failed_query_log_shape ⟨true⟩ db0 env_llm_timeout "what is xss" none false
    "LLM request timed out" (Or.inl rfl) (Or.inr ⟨rfl, rfl⟩) (by decide)

/-- Counterexample to C6 as stated: with retrieval having completed 3 chunks
before the generation timeout (ghost field of the scenario), the logged entry
still records retrieved_chunks = 0, not 3. -/
theorem failed_query_log_ignores_retrieved_count :
    ((RAGPipeline.query ⟨true⟩ db0 env_llm_timeout "what is xss" none false).2.2).query_logs =
      [{ id := 1, query_text := "what is xss", response_text := none
         retrieved_chunks := 0, response_time := 12, success := 0
         error_message := some "LLM request timed out" }] ∧
    env_llm_timeout.retrieved_before_failure = 3 ∧
    (((RAGPipeline.query ⟨true⟩ db0 env_llm_timeout "what is xss" none false).2.2).query_logs.map
        QueryLog.retrieved_chunks) ≠ [env_llm_timeout.retrieved_before_failure] := by
  refine ⟨rfl, rfl, ?_⟩
  intro h
  have h0 : (((RAGPipeline.query ⟨true⟩ db0 env_llm_timeout "what is xss" none false).2.2).query_logs.map
      QueryLog.retrieved_chunks) = [0] := rfl
  rw [h0] at h
  simp [env_llm_timeout] at h

/-- C7 (confirmed): the integrity check returns false whenever the manager is
uninitialized, the index object is absent, the node registry is empty (also on
a freshly-cleared index), or an exception occurs during the check
(fail-closed); and it returns true after a successful ingestion has populated
the node registry. -/
theorem validate_index_integrity_spec
    (vsm : VectorStoreManager) (env : WriteEnv) (documents : List String)
    (idx : IndexModel) :
    (vsm.vsm_initialized = false → vsm.validate_index_integrity = false) ∧
    (vsm.index = none → vsm.validate_index_integrity = false) ∧
    (vsm.index = some idx → idx.struct_fault = true →
      vsm.validate_index_integrity = false) ∧
    (vsm.index = some idx → idx.index_struct = some { nodes_dict := [] } →
      vsm.validate_index_integrity = false) ∧
    ((vsm.clear_index env.persist_ok).2.validate_index_integrity = false) ∧
    (vsm.vsm_initialized = true → vsm.index = some idx → idx.struct_fault = false →
      documents ≠ [] → env.persist_ok = true →
      ∀ k vsm', vsm.add_documents env documents = (Except.ok k, vsm') →
        vsm'.validate_index_integrity = true) := by
  refine ⟨?_, ?_, ?_, ?_, ?_, ?_⟩
  · intro h
    simp [VectorStoreManager.validate_index_integrity, h]
  · intro h
    simp [VectorStoreManager.validate_index_integrity, h]
  · intro h hf
    simp [VectorStoreManager.validate_index_integrity, h, hf]
  · intro h hs
    simp [VectorStoreManager.validate_index_integrity, h, hs]
  · simp [VectorStoreManager.clear_index, VectorStoreManager.create_new_index,
      VectorStoreManager.validate_index_integrity]
  · intro hinit hidx hfault hne hpe k vsm' hadd
    rw [add_documents_insert_eq vsm env documents idx hinit hidx hpe hne] at hadd
    injection hadd with h1 h2
    subst h2
    simp [VectorStoreManager.validate_index_integrity, hinit, hfault,
      take_all_contains, hne]
    intro x hx
    have hmem := List.mem_of_mem_take hx
    simpa [List.mem_append] using hmem

/-- Witness for C7: the check is false on the never-initialized manager and
true right after one successful ingestion into vsm1. -/
theorem validate_index_integrity_spec_witness :
    vsm0.validate_index_integrity = false ∧
    (vsm1.add_documents write_env1 ["n3"]).2.validate_index_integrity = true := by
  constructor
  · exact (validate_index_integrity_spec vsm0 write_env1 [] idx1).1 rfl
  · exact (validate_index_integrity_spec vsm1 write_env1 ["n3"] idx1).2.2.2.2.2
      rfl rfl rfl (by decide) rfl 1 (vsm1.add_documents write_env1 ["n3"]).2 rfl

/-- C8 (confirmed): initialize is idempotent — a second call returns the state
unchanged — and when the registry file exists but loading the persisted state
raises, initialize falls back without raising to a fresh empty inner-product
index of the configured dimension. -/
theorem initialize_idempotent_and_fallback
    (vsm : VectorStoreManager) (env env2 : InitEnv) (e : String) :
    (VectorStoreManager.initialize_store (VectorStoreManager.initialize_store vsm env) env2 =
      VectorStoreManager.initialize_store vsm env) ∧
    (vsm.vsm_initialized = true → VectorStoreManager.initialize_store vsm env = vsm) ∧
    (vsm.vsm_initialized = false → env.docstore_file_exists = true →
      env.load_result = Except.error e →
      VectorStoreManager.initialize_store vsm env =
        { vsm.create_new_index with vsm_initialized := true } ∧
      (VectorStoreManager.initialize_store vsm env).vector_store =
        some { faiss_index := { dim := settings.embedding_dimension
                                metric := SimMetric.inner_product, ntotal := 0 } } ∧
      (VectorStoreManager.initialize_store vsm env).index =
        some { index_struct := some { nodes_dict := [] }, struct_fault := false }) := by
  have hidem : ∀ (v : VectorStoreManager) (en : InitEnv),
      v.vsm_initialized = true → VectorStoreManager.initialize_store v en = v := by
    intro v en h
    unfold VectorStoreManager.initialize_store
    rw [if_pos h]
  have hres : (VectorStoreManager.initialize_store vsm env).vsm_initialized = true := by
    unfold VectorStoreManager.initialize_store
    by_cases hb : vsm.vsm_initialized = true
    · rw [if_pos hb]
      exact hb
    · rw [if_neg hb]
  refine ⟨hidem _ env2 hres, hidem vsm env, ?_⟩
  intro h0 h1 h2
  have hmain : VectorStoreManager.initialize_store vsm env =
      { vsm.create_new_index with vsm_initialized := true } := by
    unfold VectorStoreManager.initialize_store
    rw [if_neg (show ¬ vsm.vsm_initialized = true by simp [h0])]
    dsimp only
    rw [if_pos h1, h2]
  refine ⟨hmain, ?_, ?_⟩
  · rw [hmain]
    rfl
  · rw [hmain]
    rfl

/-- Witness for C8: starting uninitialized with a present-but-corrupt
persisted registry, initialize yields the fresh 384-dimension inner-product
index, and a second initialize call is a no-op on that state. -/
theorem initialize_idempotent_and_fallback_witness :
    (VectorStoreManager.initialize_store (VectorStoreManager.initialize_store vsm0 env_load_fails)
      env_load_fails = VectorStoreManager.initialize_store vsm0 env_load_fails) ∧
    VectorStoreManager.initialize_store vsm0 env_load_fails =
      { vsm0.create_new_index with vsm_initialized := true } ∧
    (VectorStoreManager.initialize_store vsm0 env_load_fails).vector_store =
      some { faiss_index := { dim := settings.embedding_dimension
                              metric := SimMetric.inner_product, ntotal := 0 } } ∧
    (VectorStoreManager.initialize_store vsm0 env_load_fails).index =
      some { index_struct := some { nodes_dict := [] }, struct_fault := false } := by
  have h := initialize_idempotent_and_fallback vsm0 env_load_fails env_load_fails
    "pickle load failed"
  exact ⟨h.1, (h.2.2 rfl rfl rfl).1, (h.2.2 rfl rfl rfl).2.1, (h.2.2 rfl rfl rfl).2.2⟩

/-- C9 (confirmed): when sources are requested, each returned passage's
displayed text equals its full content when the content is at most 500
characters, and equals exactly the first 500 characters followed by "..."
when longer; the truncated-with-marker form is produced if and only if the
content exceeds 500 characters. -/
theorem query_source_preview_truncation
    (st : RAGPipeline) (db : Database) (env : QueryEnv) (query_text : String)
    (tk : Option Nat) (response : EngineResponse) (nodes : List SourceNode)
    (hinit : st.pipeline_initialized = true)
    (heng : env.engine_result = Except.ok ())
    (hq : env.query_result = Except.ok response)
    (hsn : response.source_nodes = some nodes) :
    ∃ result st' db',
      RAGPipeline.query st db env query_text tk true = (Except.ok result, st', db') ∧
      result.sources = some (nodes.map make_source_info) ∧
      ∀ node ∈ nodes,
        (node.content.length ≤ 500 → (make_source_info node).text = node.content) ∧
        (500 < node.content.length ↔
          (make_source_info node).text =
            String.mk (node.content.data.take 500) ++ "...") := by
  obtain ⟨b⟩ := st
  obtain ⟨ir, er, qr, rbf, el⟩ := env
  obtain ⟨rtext, sns⟩ := response
  have hb : b = true := hinit
  subst hb
  have he : er = Except.ok () := heng
  subst he
  have hq' : qr = Except.ok ⟨rtext, sns⟩ := hq
  subst hq'
  have hs : sns = some nodes := hsn
  subst hs
  exact ⟨_, _, _, rfl, rfl, fun node _ =>
    ⟨fun h => preview_text_of_le node.content h, preview_marker_iff node.content⟩⟩

/-- Witness for C9: on a concrete retrieval with one 20-character and one
501-character passage, the first is displayed in full and the second is cut
to 500 characters plus the marker. -/
theorem query_source_preview_truncation_witness :
    ∃ result st' db',
      RAGPipeline.query ⟨true⟩ db0 env_success "how do I prevent sql injection" none
        true = (Except.ok result, st', db') ∧
      result.sources = some (sample_nodes.map make_source_info) ∧
      ∀ node ∈ sample_nodes,
        (node.content.length ≤ 500 → (make_source_info node).text = node.content) ∧
        (500 < node.content.length ↔
          (make_source_info node).text =
            String.mk (node.content.data.take 500) ++ "...") :=
  query_source_preview_truncation ⟨true⟩ db0 env_success
    "how do I prevent sql injection" none resp_with_sources sample_nodes rfl rfl rfl rfl

/-- C10 (confirmed): a successful query with return_sources=false reports
retrieved_chunks = 0 both in the returned dictionary and in the Query Log
entry, regardless of how many passages the engine actually returned; the true
count is reported only when return_sources=true. -/
theorem query_chunk_count_hidden_without_sources
    (st : RAGPipeline) (db : Database) (env : QueryEnv) (query_text : String)
    (tk : Option Nat) (response : EngineResponse) (nodes : List SourceNode)
    (hinit : st.pipeline_initialized = true)
    (heng : env.engine_result = Except.ok ())
    (hq : env.query_result = Except.ok response)
    (hsn : response.source_nodes = some nodes) :
    (∃ result st' db',
      RAGPipeline.query st db env query_text tk false = (Except.ok result, st', db') ∧
      result.status = "success" ∧ result.retrieved_chunks = 0 ∧
      db'.query_logs = db.query_logs ++
        [{ id := db.next_log_id, query_text := query_text
           response_text := some response.text, retrieved_chunks := 0
           response_time := env.elapsed, success := 1, error_message := none }]) ∧
    (∃ result st' db',
      RAGPipeline.query st db env query_text tk true = (Except.ok result, st', db') ∧
      result.retrieved_chunks = nodes.length) := by
  obtain ⟨b⟩ := st
  obtain ⟨ir, er, qr, rbf, el⟩ := env
  obtain ⟨rtext, sns⟩ := response
  have hb : b = true := hinit
  subst hb
  have he : er = Except.ok () := heng
  subst he
  have hq' : qr = Except.ok ⟨rtext, sns⟩ := hq
  subst hq'
  have hs : sns = some nodes := hsn
  subst hs
  exact ⟨⟨_, _, _, rfl, rfl, rfl, rfl⟩, ⟨_, _, _, rfl, rfl⟩⟩

/-- Witness for C10: the same successful 2-passage retrieval reports 0
retrieved chunks (result and log) without sources and 2 with sources. -/
theorem query_chunk_count_hidden_without_sources_witness :
    (∃ result st' db',
      RAGPipeline.query ⟨true⟩ db0 env_success "how do I prevent sql injection" none
        false = (Except.ok result, st', db') ∧
      result.status = "success" ∧ result.retrieved_chunks = 0 ∧
      db'.query_logs = db0.query_logs ++
        [{ id := db0.next_log_id, query_text := "how do I prevent sql injection"
           response_text := some resp_with_sources.text, retrieved_chunks := 0
           response_time := env_success.elapsed, success := 1
           error_message := none }]) ∧
    (∃ result st' db',
      RAGPipeline.query ⟨true⟩ db0 env_success "how do I prevent sql injection" none
        true = (Except.ok result, st', db') ∧
      result.retrieved_chunks = sample_nodes.length) :=
  query_chunk_count_hidden_without_sources ⟨true⟩ db0 env_success
    "how do I prevent sql injection" none resp_with_sources sample_nodes rfl rfl rfl rfl
